import Mathlib

/-
Verification of the Clerk-to-Convex user synchronization logic of this
repository: the webhook route in convex/http.ts, the user mutations in
convex/users.ts, and the toast-mutation wrapper hook in
src/hooks/use-mutation-with-toast.ts.

The Convex database is embedded as a list of user documents; each internal
mutation becomes a function from a database to an `Except`-value (an
`Except.error` models a thrown error, which in Convex rolls the transaction
back, leaving the database unchanged).
-/

namespace ClerkSync

/-- One entry of the payload's email_addresses array. -/
structure EmailAddressEntry where
  email_address : String
deriving DecidableEq, Repr

/-- The data object of a webhook event as it arrives over the wire (parsed
JSON): every field may be absent, which JavaScript sees as undefined. -/
structure EventData where
  id : Option String
  email_addresses : Option (List EmailAddressEntry)
  first_name : Option String
  last_name : Option String
  image_url : Option String
deriving DecidableEq, Repr

/-- A verified webhook event: a type tag and a data payload. -/
structure WebhookEvent where
  type : String
  data : EventData
deriving DecidableEq, Repr

/-- A document of the users table (convex/schema): the Convex id plus the
fields written by the webhook mutations. -/
structure UserDoc where
  id : Nat
  clerkId : String
  email : String
  firstName : Option String
  lastName : Option String
  imageUrl : Option String
deriving DecidableEq, Repr

/-- The users table, as the list of its documents. -/
abbrev UserDb := List UserDoc

/-- The predicate of the by_clerk_id index lookup. -/
def byClerkId (cid : String) : UserDoc → Bool := fun u => u.clerkId == cid

/-- Convex query: withIndex by_clerk_id followed by .unique(), which yields
the single matching document, null when there is none, and throws when the
index holds more than one match. -/
def findUnique (db : UserDb) (cid : String) : Except String (Option UserDoc) :=
  match db.filter (byClerkId cid) with
  | [] => .ok none
  | [u] => .ok (some u)
  | _ :: _ :: _ => .error "unique: query returned more than one document"

/-- Largest document id present (0 for the empty table). -/
def maxId (db : UserDb) : Nat := db.foldr (fun u m => max u.id m) 0

/-- A fresh document id for ctx.db.insert. -/
def freshId (db : UserDb) : Nat := maxId db + 1

/-- The argument record sent by handleUserEvent into the upsert mutation:
clerkId and email are always sent, the other three fields only when present
in the payload (undefined means absent for a v.optional validator). -/
structure UpsertArgs where
  clerkId : String
  email : String
  firstName : Option String
  lastName : Option String
  imageUrl : Option String
deriving DecidableEq, Repr

/-- The document inserted for the given upsert arguments. -/
def mkUserDoc (i : Nat) (args : UpsertArgs) : UserDoc :=
  { id := i, clerkId := args.clerkId, email := args.email,
    firstName := args.firstName, lastName := args.lastName,
    imageUrl := args.imageUrl }

/-- The field patch applied to an existing document: email is always sent
and overwritten; each optional field is overwritten when sent and kept
otherwise (no change beyond the fields sent). -/
def applyPatch (args : UpsertArgs) (u : UserDoc) : UserDoc :=
  { u with
    email := args.email,
    firstName := match args.firstName with | some x => some x | none => u.firstName,
    lastName := match args.lastName with | some x => some x | none => u.lastName,
    imageUrl := match args.imageUrl with | some x => some x | none => u.imageUrl }

/-- ctx.db.patch(docId, ...): rewrite the document with the given id. -/
def patchUser (db : UserDb) (docId : Nat) (f : UserDoc → UserDoc) : UserDb :=
  db.map (fun u => if u.id = docId then f u else u)

/-- Modelled from the spec: convex/http.ts invokes the internal mutation
internal.users.upsertFromClerk, whose body is not among the sources at hand
(convex/users.ts defines createUser and updateUser instead, which the
webhook path never calls). The spec describes the invoked mutation as "a
lookup-by-external-id followed by either a field patch (if found) or an
insert (if not) - a standard upsert", with "no change beyond the fields
sent". -/
def upsertFromClerk (db : UserDb) (args : UpsertArgs) : Except String UserDb :=
  match findUnique db args.clerkId with
  | .error e => .error e
  | .ok none => .ok (db ++ [mkUserDoc (freshId db) args])
  | .ok (some u) => .ok (patchUser db u.id (applyPatch args))

/-- Modelled from the spec: convex/http.ts invokes the internal mutation
internal.users.deleteFromClerk, whose body is not among the sources at hand.
The spec describes it as "looks up by external id and removes the record if
present, silently no-op if absent"; convex/users.ts defines deleteUser with
exactly these semantics. -/
def deleteFromClerk (db : UserDb) (cid : String) : Except String UserDb :=
  match findUnique db cid with
  | .error e => .error e
  | .ok none => .ok db
  | .ok (some u) => .ok (db.filter (fun w => w.id != u.id))

/-- The argument validator shared by createUser and updateUser in
convex/users.ts: clerkId required, every other field optional. -/
structure UserMutationArgs where
  clerkId : String
  email : Option String
  firstName : Option String
  lastName : Option String
  imageUrl : Option String
deriving DecidableEq, Repr

/-- convex/users.ts createUser: unconditional insert, email defaulted to the
empty string. -/
def createUser (db : UserDb) (args : UserMutationArgs) : Except String UserDb :=
  .ok (db ++ [{ id := freshId db, clerkId := args.clerkId,
                email := args.email.getD "", firstName := args.firstName,
                lastName := args.lastName, imageUrl := args.imageUrl }])

/-- convex/users.ts updateUser: lookup by clerkId; warn-and-return when
absent, otherwise patch each field, keeping the stored value when the
argument is absent. -/
def updateUser (db : UserDb) (args : UserMutationArgs) : Except String UserDb :=
  match findUnique db args.clerkId with
  | .error e => .error e
  | .ok none => .ok db
  | .ok (some u) => .ok (patchUser db u.id (fun w =>
      { w with
        email := args.email.getD w.email,
        firstName := match args.firstName with | some x => some x | none => w.firstName,
        lastName := match args.lastName with | some x => some x | none => w.lastName,
        imageUrl := match args.imageUrl with | some x => some x | none => w.imageUrl }))

/-- convex/users.ts deleteUser: lookup by clerkId; warn-and-return when
absent, otherwise delete the found document. -/
def deleteUser (db : UserDb) (cid : String) : Except String UserDb :=
  match findUnique db cid with
  | .error e => .error e
  | .ok none => .ok db
  | .ok (some u) => .ok (db.filter (fun w => w.id != u.id))

/-- JavaScript truthiness of the optional string evt.data.id: undefined and
the empty string are falsy. -/
def truthy : Option String → Bool
  | none => false
  | some s => s != ""

/-- The upsert arguments computed by handleUserEvent from a created/updated
event: clerkId from data.id, email from the head of email_addresses (empty
string when the array is empty), the rest passed through. -/
def eventArgs (cid : String) (addrs : List EmailAddressEntry) (d : EventData) : UpsertArgs :=
  { clerkId := cid,
    email := ((addrs.head?).map EmailAddressEntry.email_address).getD "",
    firstName := d.first_name,
    lastName := d.last_name,
    imageUrl := d.image_url }

/-- convex/http.ts handleUserEvent. On a created/updated event the argument
object is built first: reading index 0 of an absent email_addresses array
throws a TypeError, and an absent data.id is rejected by the v.string()
argument validator of the mutation. On a deleted event the mutation runs
only when data.id is truthy. -/
def handleUserEvent (evt : WebhookEvent) (db : UserDb) : Except String UserDb :=
  if evt.type == "user.created" || evt.type == "user.updated" then
    match evt.data.email_addresses with
    | none => .error "TypeError: Cannot read properties of undefined (reading 0)"
    | some addrs =>
      match evt.data.id with
      | none => .error "ArgumentValidationError: clerkId must be a string"
      | some cid => upsertFromClerk db (eventArgs cid addrs evt.data)
  else if evt.type == "user.deleted" && truthy evt.data.id then
    deleteFromClerk db (evt.data.id.getD "")
  else
    .ok db

/-- convex/http.ts processWebhookEvent: the three user event types dispatch
to handleUserEvent; any other type is only logged. -/
def processWebhookEvent (evt : WebhookEvent) (db : UserDb) : Except String UserDb :=
  if evt.type == "user.created" || evt.type == "user.updated"
      || evt.type == "user.deleted" then
    handleUserEvent evt db
  else
    .ok db

/-- An HTTP response of the route handler. -/
structure HttpResponse where
  status : Nat
  body : String
deriving DecidableEq, Repr

/-- The /clerk-webhook route handler of convex/http.ts. secret is the
CLERK_WEBHOOK_SECRET environment variable; verified is the outcome
verifyWebhook would produce for the request (an error models a thrown
verification failure). The missing-secret check precedes the try block; the
try/catch spans both verification and processWebhookEvent, converting any
thrown error to a 400 response. A thrown mutation rolls back, so the
database is unchanged on every non-200 path. -/
def routeHandler (secret : Option String) (verified : Except String WebhookEvent)
    (db : UserDb) : Except String (HttpResponse × UserDb) :=
  match secret with
  | none => .ok ({ status := 500, body := "Webhook configuration error" }, db)
  | some _ =>
    match verified with
    | .error e => .ok ({ status := 400, body := "Error processing webhook: " ++ e }, db)
    | .ok evt =>
      match processWebhookEvent evt db with
      | .error e => .ok ({ status := 400, body := "Error processing webhook: " ++ e }, db)
      | .ok db2 => .ok ({ status := 200, body := "Webhook processed successfully" }, db2)

/-- The invariant the spec states for the users table: at most one document
per external identity (here, for the given clerkId). -/
def AtMostOne (db : UserDb) (cid : String) : Prop :=
  (db.filter (byClerkId cid)).length ≤ 1

instance (db : UserDb) (cid : String) : Decidable (AtMostOne db cid) := by
  unfold AtMostOne; infer_instance

/- src/hooks/use-mutation-with-toast.ts, second variant (the one returning a
MutationResult). -/

/-- A JavaScript Error value, reduced to its message. -/
structure JsError where
  message : String
deriving DecidableEq, Repr

/-- A value thrown by the underlying mutation: either an Error instance or
some non-Error value. -/
inductive Thrown where
  | errObj (e : JsError)
  | nonError (description : String)
deriving DecidableEq, Repr

/-- The MutationResult union type of the hook. -/
inductive MutationResult (α : Type) where
  | success (data : α)
  | failure (error : JsError)
deriving DecidableEq, Repr

/-- The options object of the hook (only toast texts; no observable effect
on the returned value). -/
structure MutationOptions where
  successMessage : Option String
  errorMessage : Option String
deriving DecidableEq, Repr

/-- error instanceof Error ? error : new Error("Ocurrió un error inesperado"). -/
def coerceToError : Thrown → JsError
  | .errObj e => e
  | .nonError _ => { message := "Ocurrió un error inesperado" }

/-- The execute function returned by useMutationWithToast: await the
underlying mutation (whose outcome is the mutate argument), wrap a
resolution as success and a caught throw as failure. The outer Except is the
hook's own promise: an Except.error would model execute itself rejecting. -/
def useMutationWithToast {α : Type} (options : MutationOptions)
    (mutate : Except Thrown α) : Except Thrown (MutationResult α) :=
  match options, mutate with
  | _, .ok r => .ok (.success r)
  | _, .error e => .ok (.failure (coerceToError e))

/- Helper lemmas shared by the claim theorems. -/

lemma mem_id_le_maxId {db : UserDb} {u : UserDoc} (h : u ∈ db) : u.id ≤ maxId db := by
  induction db with
  | nil => cases h
  | cons w t ih =>
    rcases List.mem_cons.mp h with h | h
    · subst h; exact le_max_left _ _
    · exact le_trans (ih h) (le_max_right _ _)

lemma id_ne_freshId {db : UserDb} {u : UserDoc} (h : u ∈ db) : u.id ≠ freshId db := by
  have := mem_id_le_maxId h
  unfold freshId
  omega

lemma applyPatch_clerkId (args : UpsertArgs) (u : UserDoc) :
    (applyPatch args u).clerkId = u.clerkId := rfl

lemma applyPatch_id (args : UpsertArgs) (u : UserDoc) :
    (applyPatch args u).id = u.id := rfl

lemma applyPatch_idem (args : UpsertArgs) (u : UserDoc) :
    applyPatch args (applyPatch args u) = applyPatch args u := by
  cases hf : args.firstName <;> cases hl : args.lastName <;> cases hi : args.imageUrl <;>
    simp [applyPatch, hf, hl, hi]

lemma applyPatch_mkUserDoc (args : UpsertArgs) (i : Nat) :
    applyPatch args (mkUserDoc i args) = mkUserDoc i args := by
  cases hf : args.firstName <;> cases hl : args.lastName <;> cases hi : args.imageUrl <;>
    simp [applyPatch, mkUserDoc, hf, hl, hi]

lemma filter_map_comm (g : UserDoc → UserDoc) (p : UserDoc → Bool) (db : UserDb)
    (h : ∀ u, p (g u) = p u) : (db.map g).filter p = (db.filter p).map g := by
  induction db with
  | nil => rfl
  | cons w t ih =>
    simp only [List.map_cons, List.filter_cons, h w]
    cases hpw : p w <;> simp [hpw, ih]

lemma map_eq_self_of_mem {db : UserDb} {g : UserDoc → UserDoc}
    (h : ∀ u ∈ db, g u = u) : db.map g = db := by
  induction db with
  | nil => rfl
  | cons w t ih =>
    simp only [List.map_cons]
    rw [h w (List.mem_cons_self _ _), ih (fun u hu => h u (List.mem_cons_of_mem _ hu))]

lemma patchUser_patchUser (db : UserDb) (i : Nat) (f : UserDoc → UserDoc)
    (hid : ∀ u, (f u).id = u.id) (hidem : ∀ u, f (f u) = f u) :
    patchUser (patchUser db i f) i f = patchUser db i f := by
  simp only [patchUser, List.map_map]
  congr 1
  funext u
  by_cases hui : u.id = i
  · simp [Function.comp, hui, hid, hidem]
  · simp [Function.comp, hui]

lemma upsert_insert_case {db : UserDb} {args : UpsertArgs}
    (h : db.filter (byClerkId args.clerkId) = []) :
    upsertFromClerk db args = .ok (db ++ [mkUserDoc (freshId db) args]) := by
  simp [upsertFromClerk, findUnique, h]

lemma upsert_patch_case {db : UserDb} {args : UpsertArgs} {u : UserDoc}
    (h : db.filter (byClerkId args.clerkId) = [u]) :
    upsertFromClerk db args = .ok (patchUser db u.id (applyPatch args)) := by
  simp [upsertFromClerk, findUnique, h]

lemma byClerkId_applyPatch (args : UpsertArgs) (cid : String) (u : UserDoc) :
    byClerkId cid (applyPatch args u) = byClerkId cid u := by
  simp [byClerkId, applyPatch_clerkId]

lemma filter_erase_of_single {p q : UserDoc → Bool} {db : UserDb} {u : UserDoc}
    (h : db.filter p = [u]) (hqu : q u = false) : (db.filter q).filter p = [] := by
  rw [List.filter_eq_nil_iff]
  intro a ha
  have hadb : a ∈ db := List.mem_of_mem_filter ha
  have haq : q a = true := List.of_mem_filter ha
  intro hpa
  have : a ∈ db.filter p := List.mem_filter.mpr ⟨hadb, hpa⟩
  rw [h] at this
  simp at this
  subst this
  rw [hqu] at haq
  cases haq

lemma deleteUser_eq_deleteFromClerk (db : UserDb) (cid : String) :
    deleteFromClerk db cid = deleteUser db cid := rfl

lemma filter_append_mk {db : UserDb} {args : UpsertArgs}
    (hfil : db.filter (byClerkId args.clerkId) = []) :
    (db ++ [mkUserDoc (freshId db) args]).filter (byClerkId args.clerkId)
      = [mkUserDoc (freshId db) args] := by
  rw [List.filter_append, hfil]
  simp [byClerkId, mkUserDoc]

lemma patch_insert_self {db : UserDb} {args : UpsertArgs} :
    patchUser (db ++ [mkUserDoc (freshId db) args]) (mkUserDoc (freshId db) args).id
      (applyPatch args) = db ++ [mkUserDoc (freshId db) args] := by
  unfold patchUser
  rw [List.map_append]
  congr 1
  · exact map_eq_self_of_mem (fun u hu => by
      have hne : u.id ≠ freshId db := id_ne_freshId hu
      simp [mkUserDoc, hne])
  · simp [applyPatch_mkUserDoc]

lemma patch_filter_single {db : UserDb} {args : UpsertArgs} {u : UserDoc}
    (hfil : db.filter (byClerkId args.clerkId) = [u]) :
    (patchUser db u.id (applyPatch args)).filter (byClerkId args.clerkId)
      = [applyPatch args u] := by
  have hp : ∀ w : UserDoc,
      byClerkId args.clerkId (if w.id = u.id then applyPatch args w else w)
        = byClerkId args.clerkId w := by
    intro w
    by_cases hw : w.id = u.id <;> simp [hw, byClerkId_applyPatch]
  rw [patchUser, filter_map_comm _ _ _ hp, hfil]
  simp

/-- Behavior of the upsert mutation under the one-record-per-identity
invariant: it succeeds, leaves exactly one matching record whose fields
reflect the arguments (absent optional arguments asserted only when sent),
and running it again on its own output changes nothing. -/
lemma upsert_result (db : UserDb) (args : UpsertArgs) (h : AtMostOne db args.clerkId) :
    ∃ db2 r, upsertFromClerk db args = .ok db2 ∧
      db2.filter (byClerkId args.clerkId) = [r] ∧
      r.clerkId = args.clerkId ∧
      r.email = args.email ∧
      (∀ s, args.firstName = some s → r.firstName = some s) ∧
      (∀ s, args.lastName = some s → r.lastName = some s) ∧
      (∀ s, args.imageUrl = some s → r.imageUrl = some s) ∧
      upsertFromClerk db2 args = .ok db2 := by
  cases hfil : db.filter (byClerkId args.clerkId) with
  | nil =>
    have hfil2 := filter_append_mk hfil
    refine ⟨db ++ [mkUserDoc (freshId db) args], mkUserDoc (freshId db) args,
      upsert_insert_case hfil, hfil2, rfl, rfl, ?_, ?_, ?_, ?_⟩
    · intro s hs; exact hs
    · intro s hs; exact hs
    · intro s hs; exact hs
    · rw [upsert_patch_case hfil2, patch_insert_self]
  | cons u rest =>
    have hrest : rest = [] := by
      have hlen := h
      unfold AtMostOne at hlen
      rw [hfil] at hlen
      simp only [List.length_cons] at hlen
      exact List.eq_nil_of_length_eq_zero (by omega)
    subst hrest
    have hu_mem : u ∈ db.filter (byClerkId args.clerkId) := by
      rw [hfil]; exact List.mem_singleton.mpr rfl
    have hcu : u.clerkId = args.clerkId := by
      have := List.of_mem_filter hu_mem
      simpa [byClerkId] using this
    have hfil2 := patch_filter_single hfil
    refine ⟨patchUser db u.id (applyPatch args), applyPatch args u,
      upsert_patch_case hfil, hfil2, ?_, rfl, ?_, ?_, ?_, ?_⟩
    · rw [applyPatch_clerkId]; exact hcu
    · intro s hs; simp [applyPatch, hs]
    · intro s hs; simp [applyPatch, hs]
    · intro s hs; simp [applyPatch, hs]
    · rw [upsert_patch_case hfil2, applyPatch_id,
        patchUser_patchUser db u.id (applyPatch args) (applyPatch_id args)
          (applyPatch_idem args)]

/-- C1: a valid user.created or user.updated event with external id X (a
valid event carries an email_addresses array), processed against a table
satisfying the one-record-per-identity invariant, succeeds and leaves
exactly one record with clerkId X; that record's fields match the event
payload (each optional field asserted when the payload sends it); replaying
the same event on the resulting table is accepted and changes nothing, so no
duplicate and no change beyond the fields sent. -/
theorem userEvent_upsert_exactly_one_and_idempotent
    (db : UserDb) (evt : WebhookEvent) (X : String) (addrs : List EmailAddressEntry)
    (hty : evt.type = "user.created" ∨ evt.type = "user.updated")
    (hid : evt.data.id = some X)
    (hea : evt.data.email_addresses = some addrs)
    (hone : AtMostOne db X) :
    ∃ db2, handleUserEvent evt db = .ok db2 ∧
      (db2.filter (byClerkId X)).length = 1 ∧
      (∀ r ∈ db2.filter (byClerkId X),
        r.clerkId = X ∧
        r.email = ((addrs.head?).map EmailAddressEntry.email_address).getD "" ∧
        (∀ s, evt.data.first_name = some s → r.firstName = some s) ∧
        (∀ s, evt.data.last_name = some s → r.lastName = some s) ∧
        (∀ s, evt.data.image_url = some s → r.imageUrl = some s)) ∧
      handleUserEvent evt db2 = .ok db2 := by
  have hred : ∀ d : UserDb,
      handleUserEvent evt d = upsertFromClerk d (eventArgs X addrs evt.data) := by
    intro d
    rcases hty with h | h <;> simp [handleUserEvent, h, hea, hid]
  obtain ⟨db2, r, hok, hfil, hclerk, hemail, hfn, hln, him, hreplay⟩ :=
    upsert_result db (eventArgs X addrs evt.data) hone
  have hfil2 : db2.filter (byClerkId X) = [r] := hfil
  refine ⟨db2, ?_, ?_, ?_, ?_⟩
  · rw [hred]; exact hok
  · rw [hfil2]; rfl
  · intro r2 hr2
    rw [hfil2] at hr2
    have : r2 = r := by simpa using hr2
    subst this
    exact ⟨hclerk, hemail, hfn, hln, him⟩
  · rw [hred]; exact hreplay

/-- C2: the upsert mutation invoked by the webhook handler for created and
updated events performs a lookup by external id; when the lookup finds no
record it inserts a new one (table grows by one), and when it finds one it
patches that record's fields in place (table length unchanged). -/
theorem upsertFromClerk_lookup_then_patch_or_insert (db : UserDb) (args : UpsertArgs) :
    (db.filter (byClerkId args.clerkId) = [] →
      upsertFromClerk db args = .ok (db ++ [mkUserDoc (freshId db) args]) ∧
      (db ++ [mkUserDoc (freshId db) args]).length = db.length + 1) ∧
    (∀ u, db.filter (byClerkId args.clerkId) = [u] →
      upsertFromClerk db args = .ok (patchUser db u.id (applyPatch args)) ∧
      (patchUser db u.id (applyPatch args)).length = db.length) := by
  constructor
  · intro hfil
    exact ⟨upsert_insert_case hfil, by simp⟩
  · intro u hfil
    exact ⟨upsert_patch_case hfil, by simp [patchUser]⟩

/-- C6: processing a user.deleted event with truthy external id X against a
table satisfying the one-record-per-identity invariant succeeds and leaves
no record with clerkId X, whether or not one existed; when none existed the
table is returned unchanged (silent no-op), and reprocessing the same event
is again a successful no-op. -/
theorem deleted_event_removes_and_idempotent
    (db : UserDb) (evt : WebhookEvent) (X : String)
    (hty : evt.type = "user.deleted") (hid : evt.data.id = some X) (hX : X ≠ "")
    (hone : AtMostOne db X) :
    ∃ db2, handleUserEvent evt db = .ok db2 ∧
      db2.filter (byClerkId X) = [] ∧
      (db.filter (byClerkId X) = [] → db2 = db) ∧
      handleUserEvent evt db2 = .ok db2 := by
  have hred : ∀ d : UserDb, handleUserEvent evt d = deleteFromClerk d X := by
    intro d
    simp [handleUserEvent, hty, truthy, hid, hX]
  cases hfil : db.filter (byClerkId X) with
  | nil =>
    refine ⟨db, ?_, hfil, fun _ => rfl, ?_⟩
    · rw [hred]; simp [deleteFromClerk, findUnique, hfil]
    · rw [hred]; simp [deleteFromClerk, findUnique, hfil]
  | cons u rest =>
    have hrest : rest = [] := by
      have hlen := hone
      unfold AtMostOne at hlen
      rw [hfil] at hlen
      simp only [List.length_cons] at hlen
      exact List.eq_nil_of_length_eq_zero (by omega)
    subst hrest
    have hqu : (fun w : UserDoc => w.id != u.id) u = false := by simp
    have hfil2 : (db.filter (fun w => w.id != u.id)).filter (byClerkId X) = [] :=
      filter_erase_of_single hfil hqu
    refine ⟨db.filter (fun w => w.id != u.id), ?_, hfil2, ?_, ?_⟩
    · rw [hred]; simp [deleteFromClerk, findUnique, hfil]
    · intro habs
      simp [hfil] at habs
    · rw [hred]; simp [deleteFromClerk, findUnique, hfil2]

/- Concrete scenario objects used by the remaining claims. -/

/-- The user.created event of the spec's concrete scenario. -/
def evtCreateU1 : WebhookEvent :=
  { type := "user.created",
    data := { id := some "u_1",
              email_addresses := some [{ email_address := "a@b.com" }],
              first_name := some "Jane", last_name := none, image_url := none } }

/-- The sparse user.updated event of the spec's concrete scenario: data
carries only id and first_name. -/
def evtSparseUpdateU1 : WebhookEvent :=
  { type := "user.updated",
    data := { id := some "u_1", email_addresses := none,
              first_name := some "Janet", last_name := none, image_url := none } }

/-- The document the scenario's create event produces. -/
def janeDoc : UserDoc :=
  { id := 1, clerkId := "u_1", email := "a@b.com",
    firstName := some "Jane", lastName := none, imageUrl := none }

/-- The table holding exactly the scenario's record. -/
def dbJane : UserDb := [janeDoc]

/-- A validly typed created event whose payload lacks the email_addresses
array, making the dispatch step throw after successful verification. -/
def evtNoEmailArray : WebhookEvent :=
  { type := "user.created",
    data := { id := some "u_9", email_addresses := none,
              first_name := none, last_name := none, image_url := none } }

/-- An event of a type the dispatcher does not recognize. -/
def evtSession : WebhookEvent :=
  { type := "session.created",
    data := { id := none, email_addresses := none,
              first_name := none, last_name := none, image_url := none } }

/-- A user.deleted event for the scenario's user. -/
def evtDeleteU1 : WebhookEvent :=
  { type := "user.deleted",
    data := { id := some "u_1", email_addresses := none,
              first_name := none, last_name := none, image_url := none } }

/-- A user.deleted event whose data.id is the empty string (falsy). -/
def evtDeleteBlank : WebhookEvent :=
  { type := "user.deleted",
    data := { id := some "", email_addresses := none,
              first_name := none, last_name := none, image_url := none } }

/-- Claim C3 is false at its own concrete input: after the create event
builds the u_1 record, processing the sparse update event does not set
firstName to "Janet" - the handler throws a TypeError while reading index 0
of the absent email_addresses array, the endpoint answers 400, and the
state returned still carries firstName "Jane". -/
theorem sparse_update_counterexample :
    handleUserEvent evtCreateU1 [] = .ok dbJane ∧
    handleUserEvent evtSparseUpdateU1 dbJane
      = .error "TypeError: Cannot read properties of undefined (reading 0)" ∧
    routeHandler (some "whsec") (.ok evtSparseUpdateU1) dbJane
      = .ok ({ status := 400,
               body := "Error processing webhook: TypeError: Cannot read properties of undefined (reading 0)" },
             dbJane) ∧
    dbJane.map UserDoc.firstName = [some "Jane"] :=
  ⟨rfl, rfl, rfl, rfl⟩

/-- Claim C3 (amended): on the state created from the scenario's create
event, processing the sparse user.updated event throws while reading the
absent email_addresses array; the endpoint responds 400 and the record is
entirely unchanged - every field, firstName "Jane" included, stays as it
was. -/
theorem sparse_update_throws_and_preserves_state :
    routeHandler (some "whsec") (.ok evtSparseUpdateU1) dbJane
      = .ok ({ status := 400,
               body := "Error processing webhook: TypeError: Cannot read properties of undefined (reading 0)" },
             dbJane) ∧
    dbJane = [{ id := 1, clerkId := "u_1", email := "a@b.com",
                firstName := some "Jane", lastName := none, imageUrl := none }] :=
  ⟨rfl, rfl⟩

/-- Claim C4: a request whose signature verification fails (the verifier
throws) is answered with HTTP 400 and the table is returned exactly as it
was: no mutation runs. -/
theorem invalid_signature_400_no_mutation (s e : String) (db : UserDb) :
    routeHandler (some s) (.error e) db
      = .ok ({ status := 400, body := "Error processing webhook: " ++ e }, db) := rfl

/-- Claim C5 is false as stated: a validly signed event whose dispatch step
fails after successful verification - the failure is caught by the
handler's try/catch and converted to HTTP 400 (an ok response) instead of
propagating as an error. -/
theorem dispatch_failure_caught_counterexample :
    processWebhookEvent evtNoEmailArray []
      = .error "TypeError: Cannot read properties of undefined (reading 0)" ∧
    routeHandler (some "whsec") (.ok evtNoEmailArray) []
      = .ok ({ status := 400,
               body := "Error processing webhook: TypeError: Cannot read properties of undefined (reading 0)" },
             []) :=
  ⟨rfl, rfl⟩

/-- Claim C5 (amended): with the secret configured, every failure raised
inside the try block is caught and converted to HTTP 400 with the table
unchanged - every signature-verification failure (first conjunct) and
every failure of the event-dispatch step after successful verification
(second conjunct); a successful dispatch answers 200 (third conjunct), a
missing secret answers 500 before the try block (fourth conjunct), and the
handler always returns a response, so no failure propagates as a
platform-level error (fifth conjunct). -/
theorem routeHandler_converts_all_failures (s : String) (db : UserDb) :
    (∀ e, routeHandler (some s) (.error e) db
      = .ok ({ status := 400, body := "Error processing webhook: " ++ e }, db)) ∧
    (∀ evt e, processWebhookEvent evt db = .error e →
      routeHandler (some s) (.ok evt) db
        = .ok ({ status := 400, body := "Error processing webhook: " ++ e }, db)) ∧
    (∀ evt db2, processWebhookEvent evt db = .ok db2 →
      routeHandler (some s) (.ok evt) db
        = .ok ({ status := 200, body := "Webhook processed successfully" }, db2)) ∧
    (∀ v, routeHandler none v db
      = .ok ({ status := 500, body := "Webhook configuration error" }, db)) ∧
    (∀ v, ∃ r db2, routeHandler (some s) v db = .ok (r, db2)) := by
  refine ⟨fun e => rfl, ?_, ?_, fun v => rfl, ?_⟩
  · intro evt e h
    simp [routeHandler, h]
  · intro evt db2 h
    simp [routeHandler, h]
  · intro v
    cases v with
    | error e =>
      exact ⟨{ status := 400, body := "Error processing webhook: " ++ e }, db, rfl⟩
    | ok evt =>
      cases hpe : processWebhookEvent evt db with
      | error e =>
        refine ⟨{ status := 400, body := "Error processing webhook: " ++ e }, db, ?_⟩
        simp [routeHandler, hpe]
      | ok db2 =>
        refine ⟨{ status := 200, body := "Webhook processed successfully" }, db2, ?_⟩
        simp [routeHandler, hpe]

/-- Claim C7: a validly signed event of a type other than user.created,
user.updated and user.deleted produces no mutation - the table comes back
unchanged - and the endpoint answers HTTP 200. -/
theorem unknown_event_type_no_mutation_200 (s : String) (evt : WebhookEvent) (db : UserDb)
    (h1 : evt.type ≠ "user.created") (h2 : evt.type ≠ "user.updated")
    (h3 : evt.type ≠ "user.deleted") :
    routeHandler (some s) (.ok evt) db
      = .ok ({ status := 200, body := "Webhook processed successfully" }, db) := by
  simp [routeHandler, processWebhookEvent, h1, h2, h3]

/-- Claim C8: when the signing secret variable is unconfigured the endpoint
responds 500 for every request, independently of what verification would
have produced (so before attempting it), and the table is unchanged. -/
theorem missing_secret_500_before_verification (v : Except String WebhookEvent)
    (db : UserDb) :
    routeHandler none v db
      = .ok ({ status := 500, body := "Webhook configuration error" }, db) := rfl

/-- Claim C9: a validly signed user.deleted event whose data.id is absent
or empty is skipped by the handler's truthiness guard: no mutation runs and
the endpoint still answers HTTP 200. -/
theorem deleted_event_blank_id_no_mutation_200 (s : String) (evt : WebhookEvent)
    (db : UserDb) (hty : evt.type = "user.deleted")
    (hid : evt.data.id = none ∨ evt.data.id = some "") :
    routeHandler (some s) (.ok evt) db
      = .ok ({ status := 200, body := "Webhook processed successfully" }, db) := by
  rcases hid with h | h <;>
    simp [routeHandler, processWebhookEvent, handleUserEvent, hty, truthy, h]

/-- Claim C10: the MutationResult variant of useMutationWithToast never
rejects: a resolved underlying mutation yields success with the resolved
value, and a rejected one yields failure carrying the thrown value itself
when it is an Error instance and a fresh Error with the fixed message
otherwise. The three equations cover every outcome of the underlying
mutation. -/
theorem useMutationWithToast_never_rejects {α : Type} (options : MutationOptions)
    (r : α) (e : JsError) (d : String) :
    useMutationWithToast options (.ok r) = .ok (.success r) ∧
    @useMutationWithToast α options (.error (.errObj e)) = .ok (.failure e) ∧
    @useMutationWithToast α options (.error (.nonError d))
      = .ok (.failure { message := "Ocurrió un error inesperado" }) :=
  ⟨rfl, rfl, rfl⟩

/- Witness theorems: each applies its claim's theorem at a concrete input. -/

/-- Witness for claim C1's theorem at the spec's concrete create event. -/
theorem userEvent_upsert_witness :
    ((evtCreateU1.type = "user.created" ∨ evtCreateU1.type = "user.updated") ∧
      evtCreateU1.data.id = some "u_1" ∧
      evtCreateU1.data.email_addresses = some [{ email_address := "a@b.com" }] ∧
      AtMostOne [] "u_1") ∧
    (∃ db2, handleUserEvent evtCreateU1 [] = .ok db2 ∧
      (db2.filter (byClerkId "u_1")).length = 1 ∧
      (∀ r ∈ db2.filter (byClerkId "u_1"),
        r.clerkId = "u_1" ∧
        r.email = ((([{ email_address := "a@b.com" }] : List EmailAddressEntry).head?).map
          EmailAddressEntry.email_address).getD "" ∧
        (∀ s, evtCreateU1.data.first_name = some s → r.firstName = some s) ∧
        (∀ s, evtCreateU1.data.last_name = some s → r.lastName = some s) ∧
        (∀ s, evtCreateU1.data.image_url = some s → r.imageUrl = some s)) ∧
      handleUserEvent evtCreateU1 db2 = .ok db2) :=
  ⟨⟨Or.inl rfl, rfl, rfl, by decide⟩,
    userEvent_upsert_exactly_one_and_idempotent [] evtCreateU1 "u_1"
      [{ email_address := "a@b.com" }] (Or.inl rfl) rfl rfl (by decide)⟩

/-- The upsert arguments the create scenario sends. -/
def argsU1 : UpsertArgs :=
  { clerkId := "u_1", email := "a@b.com", firstName := some "Jane",
    lastName := none, imageUrl := none }

/-- Witness for claim C2's theorem: the insert branch on the empty table
and the patch branch on the one-record table. -/
theorem upsert_lookup_witness :
    (([] : UserDb).filter (byClerkId argsU1.clerkId) = [] ∧
      upsertFromClerk [] argsU1 = .ok ([] ++ [mkUserDoc (freshId []) argsU1]) ∧
      (([] : UserDb) ++ [mkUserDoc (freshId []) argsU1]).length
        = ([] : UserDb).length + 1) ∧
    (dbJane.filter (byClerkId argsU1.clerkId) = [janeDoc] ∧
      upsertFromClerk dbJane argsU1 = .ok (patchUser dbJane janeDoc.id (applyPatch argsU1)) ∧
      (patchUser dbJane janeDoc.id (applyPatch argsU1)).length = dbJane.length) :=
  ⟨⟨rfl, (upsertFromClerk_lookup_then_patch_or_insert [] argsU1).1 rfl⟩,
    ⟨rfl, (upsertFromClerk_lookup_then_patch_or_insert dbJane argsU1).2 janeDoc rfl⟩⟩

/-- Witness for claim C6's theorem: deleting u_1 from the one-record table. -/
theorem deleted_event_witness :
    (evtDeleteU1.type = "user.deleted" ∧ evtDeleteU1.data.id = some "u_1" ∧
      "u_1" ≠ "" ∧ AtMostOne dbJane "u_1") ∧
    (∃ db2, handleUserEvent evtDeleteU1 dbJane = .ok db2 ∧
      db2.filter (byClerkId "u_1") = [] ∧
      (dbJane.filter (byClerkId "u_1") = [] → db2 = dbJane) ∧
      handleUserEvent evtDeleteU1 db2 = .ok db2) :=
  ⟨⟨rfl, rfl, by decide, by decide⟩,
    deleted_event_removes_and_idempotent dbJane evtDeleteU1 "u_1" rfl rfl
      (by decide) (by decide)⟩

/-- Witness for claim C7's theorem at a session.created event. -/
theorem unknown_event_type_witness :
    (evtSession.type ≠ "user.created" ∧ evtSession.type ≠ "user.updated" ∧
      evtSession.type ≠ "user.deleted") ∧
    routeHandler (some "whsec") (.ok evtSession) dbJane
      = .ok ({ status := 200, body := "Webhook processed successfully" }, dbJane) :=
  ⟨⟨by decide, by decide, by decide⟩,
    unknown_event_type_no_mutation_200 "whsec" evtSession dbJane
      (by decide) (by decide) (by decide)⟩

/-- Witness for claim C5's amended theorem: the dispatch-failure conjunct
at a created event lacking its email_addresses array, and the
successful-dispatch conjunct at an unrecognized event type. -/
theorem routeHandler_failures_witness :
    (processWebhookEvent evtNoEmailArray []
        = .error "TypeError: Cannot read properties of undefined (reading 0)" ∧
      routeHandler (some "whsec") (.ok evtNoEmailArray) []
        = .ok ({ status := 400,
                 body := "Error processing webhook: TypeError: Cannot read properties of undefined (reading 0)" },
               [])) ∧
    (processWebhookEvent evtSession dbJane = .ok dbJane ∧
      routeHandler (some "whsec") (.ok evtSession) dbJane
        = .ok ({ status := 200, body := "Webhook processed successfully" }, dbJane)) :=
  ⟨⟨rfl, (routeHandler_converts_all_failures "whsec" []).2.1 evtNoEmailArray
      "TypeError: Cannot read properties of undefined (reading 0)" rfl⟩,
    ⟨rfl, (routeHandler_converts_all_failures "whsec" dbJane).2.2.1 evtSession dbJane rfl⟩⟩

/-- Witness for claim C9's theorem at a deleted event with empty id. -/
theorem deleted_blank_id_witness :
    (evtDeleteBlank.type = "user.deleted" ∧
      (evtDeleteBlank.data.id = none ∨ evtDeleteBlank.data.id = some "")) ∧
    routeHandler (some "whsec") (.ok evtDeleteBlank) dbJane
      = .ok ({ status := 200, body := "Webhook processed successfully" }, dbJane) :=
  ⟨⟨rfl, Or.inr rfl⟩,
    deleted_event_blank_id_no_mutation_200 "whsec" evtDeleteBlank dbJane rfl (Or.inr rfl)⟩

end ClerkSync
